import Mathlib

/-!
Shallow embedding of the AIDE backend orchestration core
(src/backend/api.py, src/backend/services/tool_service.py, src/backend/main.py)
together with proofs settling the frozen claims about the
natural-language specification of the repository.

Python data is modelled by the `Value` type (JSON-like values), Python
exceptions by `Except` with the `PyExc` error type, and Python dicts by
association lists with first-match lookup and in-place overwrite.
-/

/-- JSON-like Python value, as passed around by the backend. -/
inductive Value where
  | null
  | bool (b : Bool)
  | num (n : Int)
  | str (s : String)
  | list (elems : List Value)
  | dict (pairs : List (String × Value))

/-- Python `d.get(key)` on a dict: first matching key. -/
def dictGet {α : Type} : List (String × α) → String → Option α
  | [], _ => none
  | (k, v) :: rest, key => if k = key then some v else dictGet rest key

/-- Python `d[key] = v`: overwrite in place if the key exists, else append. -/
def dictSet {α : Type} : List (String × α) → String → α → List (String × α)
  | [], key, v => [(key, v)]
  | (k, w) :: rest, key, v =>
      if k = key then (key, v) :: rest else (k, w) :: dictSet rest key v

/-- Python `key in d` on a dict. -/
def hasKey {α : Type} (d : List (String × α)) (key : String) : Bool :=
  (dictGet d key).isSome

/-- Python truthiness: `not value` is true exactly on these values. -/
def isFalsy : Value → Bool
  | .null => true
  | .bool b => !b
  | .num n => n == 0
  | .str s => s == ""
  | .list xs => xs.isEmpty
  | .dict kvs => kvs.isEmpty

/-- Helper for `strIn`: does `pat` occur as a contiguous run in the haystack? -/
def strInAux (pat : List Char) : List Char → Bool
  | [] => pat.isEmpty
  | c :: rest => pat.isPrefixOf (c :: rest) || strInAux pat rest

/-- Python `pat in s` on strings (substring test). -/
def strIn (pat s : String) : Bool :=
  strInAux pat.data s.data

/-- Python `s.lower()` (ASCII case folding, which covers all source patterns). -/
def pyLower (s : String) : String :=
  ⟨s.data.map Char.toLower⟩

/-- Python `s.startswith(pre)`. -/
def pyStartswith (s pre : String) : Bool :=
  pre.data.isPrefixOf s.data

/-- Python `str(xs)` for a list of strings, e.g. `[\x27a\x27, \x27b\x27]`. -/
def pyReprStrList (xs : List String) : String :=
  "[" ++ String.intercalate ", " (xs.map (fun s => "\x27" ++ s ++ "\x27")) ++ "]"

/-- Python exceptions that the embedded code can raise.
`toolExecutionError` does not occur anywhere in the source; it is modelled
from the words of the specification (`ToolExecutionError{name, cause}`) so
that the wrapping behaviour the spec describes can be stated and compared
with what the code actually does. -/
inductive PyExc where
  | keyError (msg : String)
  | other (msg : String)
  | toolExecutionError (name : String) (cause : PyExc)
deriving DecidableEq

/-- Python `str(e)` on an exception (`str` of a `KeyError` quotes its key). -/
def excMsg : PyExc → String
  | .keyError m => "\x27" ++ m ++ "\x27"
  | .other m => m
  | .toolExecutionError n c => n ++ ": " ++ excMsg c

/-- A tool handler: called with keyword arguments, may raise. -/
def Handler : Type := List (String × Value) → Except PyExc Value

/-- Metadata stored for a tool. The registry state is quantified over
arbitrary read outcomes so that corrupted states — the spec simulates "a
handler whose description accessor throws" — are representable: reading the
description or the schema may raise. `register` always stores plain
(never-raising) reads. -/
structure MetaEntry where
  descRead : Except PyExc String
  schemaRead : Except PyExc Value

/-- Internal state of `ToolRegistry` (`_tools` and `_tool_metadata` dicts),
from src/backend/services/tool_service.py (the src/backend/api.py variant
stores the metadata on the function object; its `serialize` has the same
try/except→empty-list shape). -/
structure Registry where
  tools : List (String × Handler)
  meta : List (String × MetaEntry)

/-- The freshly constructed registry. -/
def emptyRegistry : Registry := { tools := [], meta := [] }

/-- Embedding of `ToolRegistry.register(name, func, desc, schema)`: total, overwrites any
prior entry under the same name (tool_service.py lines 21-29). -/
def register (r : Registry) (name : String) (func : Handler)
    (desc : String) (schema : Value) : Registry :=
  { tools := dictSet r.tools name func,
    meta := dictSet r.meta name ⟨.ok desc, .ok schema⟩ }

/-- Embedding of `ToolRegistry.exists(name)`. -/
def existsTool (r : Registry) (name : String) : Bool :=
  hasKey r.tools name

/-- Embedding of `ToolRegistry.get_tool_names()`. -/
def get_tool_names (r : Registry) : List String :=
  r.tools.map Prod.fst

/-- Embedding of `ToolRegistry.call(name, **kwargs)` (tool_service.py lines 35-46):
raises `KeyError` with a not-found message when the name is absent;
otherwise runs the handler, and on handler failure logs and re-raises the
original exception unchanged (`raise` with no argument). -/
def call (r : Registry) (name : String) (kwargs : List (String × Value)) :
    Except PyExc Value :=
  match dictGet r.tools name with
  | none => .error (.keyError ("Tool \x27" ++ name ++ "\x27 not found. Available: " ++
      pyReprStrList (get_tool_names r)))
  | some h => h kwargs

/-- One entry of the serialized registry. -/
structure SerEntry where
  name : String
  description : String
  args_schema : Value

/-- The list comprehension inside `ToolRegistry.serialize` (the `try` body):
reads each tool entry, and raises if any metadata read raises. -/
def serializeBody (r : Registry) : Except PyExc (List SerEntry) :=
  r.meta.mapM fun nm => do
    let d ← nm.2.descRead
    let s ← nm.2.schemaRead
    pure ⟨nm.1, d, s⟩

/-- Embedding of `ToolRegistry.serialize()` (tool_service.py lines 48-61, api.py lines
57-70): the body is wrapped in try/except; any internal failure is caught
and the empty list is returned instead of raising. -/
def serialize (r : Registry) : List SerEntry :=
  match serializeBody r with
  | .ok l => l
  | .error _ => []

/-- The discussion markers of `should_use_tool_mode` (api.py lines 98-103). -/
def discussion_patterns : List String :=
  ["i think", "i believe", "i\x27m worried", "i\x27m concerned",
   "this might", "this could", "this may", "what if",
   "do you think", "opinion", "thoughts on", "feelings about",
   "problem with", "issue with", "concerns about", "discuss"]

/-- The command markers of `should_use_tool_mode` (api.py lines 104-108). -/
def command_patterns : List String :=
  ["i want you to", "i need you to", "please", "can you",
   "go ahead and", "help me", "show me the", "read the",
   "search for", "find the", "analyze the", "check the"]

/-- The Mode Classifier `should_use_tool_mode(message)` (api.py lines
96-126): `true` means tool mode, `false` means conversation mode.
Discussion markers are checked first and force conversation mode; then
command markers force tool mode; then the contextual rule for "create";
otherwise conversation mode. -/
def should_use_tool_mode (message : String) : Bool :=
  let message_lower := pyLower message
  if discussion_patterns.any (fun p => strIn p message_lower) then false
  else if command_patterns.any (fun p => strIn p message_lower) then true
  else if strIn "create" message_lower then
    let command_context :=
      ["want", "need", "should", "please", "can you", "help"].any
        (fun w => strIn w message_lower)
    let discussion_context :=
      ["think", "might", "could", "may", "problem", "issue", "concern"].any
        (fun w => strIn w message_lower)
    if discussion_context then false else command_context
  else false

/-- A word character of the regex class `\w` (ASCII range, which covers
every identifier the source extracts). -/
def isWordChar (c : Char) : Bool :=
  c.isAlphanum || c == '_'

/-- Try to match the action-marker regex `TOOL\[(\w+)\]` (case-insensitive
on the reserved token) at the head of the character list; on success return
the captured identifier (original case) and the rest of the input after the
closing bracket. -/
def tryToolMatch : List Char → Option (String × List Char)
  | t :: o1 :: o2 :: l :: br :: rest =>
    if t.toLower == 't' && o1.toLower == 'o' && o2.toLower == 'o' &&
        l.toLower == 'l' && br == '[' then
      let word := rest.takeWhile isWordChar
      match word, rest.dropWhile isWordChar with
      | _ :: _, ']' :: tail => some (⟨word⟩, tail)
      | _, _ => none
    else none
  | _ => none

/-- Fuelled scan implementing `re.findall` for the pattern above:
left-to-right, non-overlapping matches. -/
def findallToolAux : Nat → List Char → List String
  | 0, _ => []
  | _, [] => []
  | fuel + 1, c :: rest =>
    match tryToolMatch (c :: rest) with
    | some (name, tail) => name :: findallToolAux fuel tail
    | none => findallToolAux fuel rest

/-- The Tool-Call Extractor: `tool_pattern.findall(response_text)` for
`tool_pattern = re.compile(r"TOOL\[(\w+)\]", re.I)` (api.py lines 1142-1143). -/
def findallTool (text : String) : List String :=
  findallToolAux text.data.length text.data

/-- Deduplication preserving the first occurrence of each name — the order
the specification asserts for the extractor output. -/
def firstSeenDedup (l : List String) : List String :=
  go [] l
where
  go : List String → List String → List String
  | _, [] => []
  | seen, x :: xs => if x ∈ seen then go seen xs else x :: go (x :: seen) xs

/-- Admissible iteration output of Python `set(tools_found)` (api.py line
1148): iterating a `set` yields each distinct element exactly once, in an
order the language leaves unspecified (string hashing is randomized). -/
def setIterAdmissible (l out : List String) : Prop :=
  out.Nodup ∧ (∀ a ∈ out, a ∈ l) ∧ (∀ a ∈ l, a ∈ out)

instance (l out : List String) : Decidable (setIterAdmissible l out) := by
  unfold setIterAdmissible; infer_instance

/-- Is a provider output accepted by `hybrid_online_search`? (api.py line
296: `if result and "No result" not in result and "not available" not in result`). -/
def isGoodResult (r : String) : Bool :=
  r != "" && !(strIn "No result" r) && !(strIn "not available" r)

/-- The loop of `hybrid_online_search` (api.py lines 289-302), carrying the
`last_error` accumulator. A provider function that is absent from the dict
is skipped; a raising provider updates `last_error`; an empty or sentinel
result falls through WITHOUT touching `last_error`. -/
def hybridGo (funcs : List (String × (String → Except String String)))
    (query : String) : List String → String → Value
  | [], lastError =>
    .dict [("error", .str ("No provider returned a result. Last error: " ++ lastError))]
  | p :: rest, lastError =>
    match dictGet funcs p with
    | none => hybridGo funcs query rest lastError
    | some f =>
      match f query with
      | .error e => hybridGo funcs query rest (p ++ ": " ++ e)
      | .ok result =>
        if isGoodResult result then .dict [("provider", .str p), ("result", .str result)]
        else hybridGo funcs query rest lastError

/-- Embedding of `hybrid_online_search(query)` over a provider-function dict
(`PROVIDER_FUNCS`) and the configured provider order (`providers`). -/
def hybrid_online_search (funcs : List (String × (String → Except String String)))
    (providers : List String) (query : String) : Value :=
  hybridGo funcs query providers ""

mutual
/-- A minimal executable rendering of `json.dumps` for the result blocks the
dispatcher appends (Python indentation is elided; no theorem depends on
this text). -/
def jsonDumps : Value → String
  | .null => "null"
  | .bool true => "true"
  | .bool false => "false"
  | .num n => toString n
  | .str s => "\"" ++ s ++ "\""
  | .list xs => "[" ++ jsonDumpsItems xs ++ "]"
  | .dict kvs => "\x7b" ++ jsonDumpsPairs kvs ++ "\x7d"
def jsonDumpsItems : List Value → String
  | [] => ""
  | [x] => jsonDumps x
  | x :: y :: rest => jsonDumps x ++ ", " ++ jsonDumpsItems (y :: rest)
def jsonDumpsPairs : List (String × Value) → String
  | [] => ""
  | [kv] => "\"" ++ kv.1 ++ "\": " ++ jsonDumps kv.2
  | kv :: p :: rest => "\"" ++ kv.1 ++ "\": " ++ jsonDumps kv.2 ++ ", " ++ jsonDumpsPairs (p :: rest)
end

/-- One audit record appended by the dispatcher: the dicts
`{"type": ..., "tool": ..., "result": ...}` of api.py lines 1153 and 1161. -/
structure PyAction where
  atype : String
  tool : String
  result : Value

/-- The mutable state threaded through the dispatch loop of
`generate_with_tool_calling`: `response_text`, `used_tools`, `actions`. -/
structure DispState where
  text : String
  used : List String
  actions : List PyAction

/-- One iteration of the dispatch loop (api.py lines 1148-1166).
A name matching a search provider (looked up lower-cased) invokes the
provider with the original message; on success a result block, the used
name and a `search_tool` action are appended, on failure only an inline
error note is appended. Otherwise a registered tool is called with no
arguments (`tool_registry.call(tool)`), with the analogous success and
failure effects and a `custom_tool` action. Any other name leaves the state
untouched: there is no `else` branch in the source. -/
def dispStep (funcs : List (String × (String → Except String String)))
    (reg : Registry) (message : String) (st : DispState) (tool : String) :
    DispState :=
  match dictGet funcs (pyLower tool) with
  | some f =>
    match f message with
    | .ok result =>
      { text := st.text ++ "\n\n**" ++ tool ++ " Result:**\n" ++ result,
        used := st.used ++ [tool],
        actions := st.actions ++ [⟨"search_tool", tool, .str result⟩] }
    | .error e =>
      { st with text := st.text ++ "\n\n*" ++ tool ++ " error: " ++ e ++ "*" }
  | none =>
    if existsTool reg tool then
      match call reg tool [] with
      | .ok result =>
        { text := st.text ++ "\n\n**" ++ tool ++ " Result:**\n" ++ jsonDumps result,
          used := st.used ++ [tool],
          actions := st.actions ++ [⟨"custom_tool", tool, result⟩] }
      | .error e =>
        { st with text := st.text ++ "\n\n*" ++ tool ++ " error: " ++ excMsg e ++ "*" }
    else st

/-- The full dispatch loop `for tool in set(tools_found): ...` over a given
iteration order of the set. -/
def dispatchTools (funcs : List (String × (String → Except String String)))
    (reg : Registry) (message : String) (names : List String)
    (st : DispState) : DispState :=
  names.foldl (dispStep funcs reg message) st

/-- The shared shape of the three `ToolService` search-provider bodies
(`_search_duckduckgo`, `_search_wikipedia`, `_search_perplexity`,
tool_service.py lines 115-157): the network attempt is wrapped in
try/except and both branches build a dict carrying a `success` key. -/
def mkSearchProvider (attempt : Except String String) (errPrefix : String) : Value :=
  match attempt with
  | .ok t => .dict [("success", .bool true), ("result", .str t)]
  | .error e => .dict [("success", .bool false), ("error", .str (errPrefix ++ e))]

/-- Embedding of `ToolService.search_providers` (tool_service.py lines 99-113), with the
network abstracted as an oracle from provider id and query to the attempted
result text. -/
def searchProviders (net : String → Value → Except String String) :
    List (String × (Value → Value)) :=
  [("duckduckgo", fun q => mkSearchProvider (net "duckduckgo" q) "DuckDuckGo search failed: "),
   ("wikipedia", fun q => mkSearchProvider (net "wikipedia" q) "Wikipedia search failed: "),
   ("perplexity", fun q => mkSearchProvider (net "perplexity" q) "Perplexity search failed: ")]

/-- Embedding of `ToolService.execute_tool(tool_name, args)` (tool_service.py lines
287-322). The whole body is wrapped in try/except returning
`{"success": False, "error": str(e)}` on any exception; search providers are
matched on the lower-cased name and demand a truthy `query` argument;
registered-tool results are normalized (dicts get a missing `success: True`
key appended, other values are wrapped); unknown names produce a not-found
error dict. The `try` body is `execute_tool_body`; `execute_tool` itself is
the surrounding try/except. -/
def execute_tool_body (net : String → Value → Except String String)
    (reg : Registry) (tool_name : String) (args : List (String × Value)) :
    Except PyExc Value :=
  match dictGet (searchProviders net) (pyLower tool_name) with
  | some f =>
    if isFalsy ((dictGet args "query").getD (.str "")) then
      .ok (.dict [("success", .bool false), ("error", .str "No query provided for search")])
    else
      .ok (f ((dictGet args "query").getD (.str "")))
  | none =>
    if existsTool reg tool_name then
      match call reg tool_name args with
      | .error e => .error e
      | .ok result =>
        match result with
        | .dict kvs =>
          if hasKey kvs "success" then .ok (.dict kvs)
          else .ok (.dict (kvs ++ [("success", .bool true)]))
        | v => .ok (.dict [("success", .bool true), ("result", v)])
    else
      .ok (.dict [("success", .bool false),
        ("error", .str ("Tool \x27" ++ tool_name ++ "\x27 not found. Available: " ++
          pyReprStrList (get_tool_names reg ++ (searchProviders net).map Prod.fst)))])

def execute_tool (net : String → Value → Except String String)
    (reg : Registry) (tool_name : String) (args : List (String × Value)) : Value :=
  match execute_tool_body net reg tool_name args with
  | .ok v => v
  | .error e => .dict [("success", .bool false), ("error", .str (excMsg e))]

/-- Does a value carry a `success` key (so it is in particular a dict)? -/
def hasSuccess (v : Value) : Bool :=
  match v with
  | .dict kvs => hasKey kvs "success"
  | _ => false

/-- Is a value a dict? -/
def isDictV (v : Value) : Bool :=
  match v with
  | .dict _ => true
  | _ => false

/-- Session state of one websocket connection. -/
inductive WsState where
  | opened
  | closed
deriving DecidableEq

/-- One event observed by the message-processing loop of a websocket
endpoint: a decoded inbound message (its `type` field and payload), the
30-second receive timeout, a JSON decode failure, or a transport
disconnect. -/
inductive Inbound where
  | received (mtype : String) (payload : List (String × Value))
  | timeout
  | badJson (e : String)
  | disconnect

/-- Python `data.get(k)` returning a string payload field, else the empty string. -/
def getStrField (payload : List (String × Value)) (k : String) : String :=
  match dictGet payload k with
  | some (.str s) => s
  | _ => ""

/-- Python `data.get(k, ...)` returning a dict payload field, else the empty dict. -/
def getDictField (payload : List (String × Value)) (k : String) :
    List (String × Value) :=
  match dictGet payload k with
  | some (.dict kvs) => kvs
  | _ => []

/-- A serialized registry as the JSON value placed in outbound messages. -/
def serializeValue (r : Registry) : Value :=
  .list ((serialize r).map fun e =>
    .dict [("name", .str e.name), ("description", .str e.description),
           ("args_schema", e.args_schema)])

/-- External collaborators of the api.py websocket endpoint: the registry it
reads, the inference machinery behind the `query` branch (abstracted to the
response data and mode it produces), the hot-load action of the
`propose_new_tool` branch (file write plus module execution, abstracted to
its resulting registry or load error), and the workspace-context snapshot. -/
structure ApiWsEnv where
  registry : Registry
  queryData : List (String × Value) → Value
  queryMode : List (String × Value) → String
  hotLoad : String → String → Except String Registry
  workspaceContext : Value

/-- One iteration of the api.py websocket message loop (api.py lines
563-716), mapping an inbound event to the next session state and the JSON
messages sent. The branch structure mirrors the source if/elif chain:
`query`, `invoke` and `propose_new_tool` are handled; any other `type`
falls through the chain and nothing is sent; a receive timeout is logged
and the loop continues without sending; a JSON decode error is answered
with an error message; a disconnect ends the session. -/
def apiWsStep (env : ApiWsEnv) : Inbound → WsState × List Value
  | .received t payload =>
    if t = "query" then
      (.opened, [.dict [("type", .str "response"),
        ("data", env.queryData payload), ("mode", .str (env.queryMode payload))]])
    else if t = "invoke" then
      let toolName := getStrField payload "tool"
      let args := getDictField payload "args"
      if existsTool env.registry toolName then
        match call env.registry toolName args with
        | .ok result =>
          (.opened, [.dict [("type", .str "tool_response"),
            ("tool", .str toolName), ("result", result)]])
        | .error e =>
          (.opened, [.dict [("type", .str "error"),
            ("message", .str ("Tool " ++ toolName ++ " failed: " ++ excMsg e))]])
      else
        (.opened, [.dict [("type", .str "error"),
          ("message", .str ("Tool " ++ toolName ++ " not found. Available: " ++
            pyReprStrList (get_tool_names env.registry)))]])
    else if t = "propose_new_tool" then
      let name := getStrField payload "name"
      let code := getStrField payload "code"
      match env.hotLoad name code with
      | .ok newReg =>
        (.opened, [.dict [("type", .str "registry"),
          ("tools", serializeValue newReg),
          ("message", .str ("Tool \x27" ++ name ++ "\x27 created successfully")),
          ("workspace_context", env.workspaceContext)]])
      | .error e =>
        (.opened, [.dict [("type", .str "error"),
          ("message", .str ("Failed to create tool: " ++ e))]])
    else
      (.opened, [])
  | .timeout => (.opened, [])
  | .badJson e =>
    (.opened, [.dict [("type", .str "error"),
      ("message", .str ("Invalid JSON: " ++ e))]])
  | .disconnect => (.closed, [])

/-- External collaborators of the main.py websocket endpoint: the sends
produced by each recognized handler, abstracted. -/
structure MainWsEnv where
  querySends : List (String × Value) → List Value
  invokeSends : List (String × Value) → List Value
  speechSends : String → List (String × Value) → List Value
  memorySends : List (String × Value) → List Value
  capabilitiesSends : List (String × Value) → List Value
  gpuStatusSends : List (String × Value) → List Value

/-- One iteration of the main.py websocket message loop (main.py lines
303-343): recognized types are routed to their handlers, any other type is
answered with an error naming the unknown type, and a receive timeout is
answered with a keepalive message; the session stays open in every one of
these cases. -/
def mainWsStep (env : MainWsEnv) : Inbound → WsState × List Value
  | .received t payload =>
    if t = "query" then (.opened, env.querySends payload)
    else if t = "invoke" then (.opened, env.invokeSends payload)
    else if pyStartswith t "speech_" then (.opened, env.speechSends t payload)
    else if t = "memory_search" then (.opened, env.memorySends payload)
    else if t = "get_capabilities" then (.opened, env.capabilitiesSends payload)
    else if t = "gpu_status" then (.opened, env.gpuStatusSends payload)
    else
      (.opened, [.dict [("type", .str "error"),
        ("error", .str ("Unknown message type: " ++ t))]])
  | .timeout =>
    (.opened, [.dict [("type", .str "keepalive"), ("gpu_first", .bool true)]])
  | .badJson e =>
    (.opened, [.dict [("type", .str "error"),
      ("error", .str ("Invalid JSON: " ++ e))]])
  | .disconnect => (.closed, [])

/-- The `type` field of an outbound JSON message, when it is a string. -/
def valueType (v : Value) : Option String :=
  match v with
  | .dict kvs =>
    match dictGet kvs "type" with
    | some (.str t) => some t
    | _ => none
  | _ => none

/-- A corrupted registry state: one tool whose description read raises. -/
def corruptRegistry : Registry :=
  { tools := [("t", fun _ => .ok .null)],
    meta := [("t", ⟨.error (.other "boom"), .ok .null⟩)] }

/-- A registry holding one tool whose handler raises. -/
def boomRegistry : Registry :=
  register emptyRegistry "t" (fun _ => .error (.other "boom")) "" .null

/-- A registry holding one well-behaved tool. -/
def echoRegistry : Registry :=
  register emptyRegistry "echo" (fun _ => .ok (.str "hi")) "echo back" .null

/-- Assistant text with two action markers for wikipedia around one for
read_file. -/
def exToolText : String :=
  "Thought: TOOL[wikipedia] then TOOL[read_file] and again TOOL[wikipedia]"

/-- Provider table for the search-chain counterexample: the single provider
answers with the sentinel no-result text and raises no exception. -/
def sentinelFuncs : List (String × (String → Except String String)) :=
  [("searxng", fun _ => .ok "No results.")]

/-- Provider table for the dispatcher scenario: wikipedia raises. -/
def boomFuncs : List (String × (String → Except String String)) :=
  [("wikipedia", fun _ => .error "boom")]

/-- Initial dispatch state with the generated text. -/
def dispStart : DispState := { text := "base", used := [], actions := [] }

/-- A concrete environment for the api.py websocket endpoint. -/
def wsEnvA : ApiWsEnv :=
  { registry := emptyRegistry,
    queryData := fun _ => .null,
    queryMode := fun _ => "chat",
    hotLoad := fun _ _ => .error "loading disabled",
    workspaceContext := .null }

/-- A concrete environment for the main.py websocket endpoint. -/
def wsEnvM : MainWsEnv :=
  { querySends := fun _ => [],
    invokeSends := fun _ => [],
    speechSends := fun _ _ => [],
    memorySends := fun _ => [],
    capabilitiesSends := fun _ => [],
    gpuStatusSends := fun _ => [] }

/-- Provider table where the first provider answers with a sentinel and the
second succeeds. -/
def abFuncs : List (String × (String → Except String String)) :=
  [("duckduckgo", fun _ => .ok "No result."),
   ("wikipedia", fun _ => .ok "Lean is a proof assistant.")]

/-- Provider table where the first provider raises and the second answers
with an empty (falsy) result. -/
def abFuncs2 : List (String × (String → Except String String)) :=
  [("perplexity", fun _ => .error "timeout"),
   ("duckduckgo", fun _ => .ok "")]

/-- Provider table for the dispatcher witness: one raising and one working
provider. -/
def mixedFuncs : List (String × (String → Except String String)) :=
  [("wikipedia", fun _ => .error "boom"),
   ("duckduckgo", fun _ => .ok "answer")]

theorem dictGet_dictSet_self {α : Type} (d : List (String × α)) (k : String) (v : α) :
    dictGet (dictSet d k v) k = some v := by
  induction d with
  | nil => simp [dictSet, dictGet]
  | cons kv rest ih =>
    obtain ⟨k', w⟩ := kv
    by_cases hk : k' = k
    · simp [dictSet, hk, dictGet]
    · simp [dictSet, hk, dictGet, ih]

theorem dictGet_append_of_none {α : Type} {d : List (String × α)} {k : String}
    (v : α) (h : dictGet d k = none) :
    dictGet (d ++ [(k, v)]) k = some v := by
  induction d with
  | nil => simp [dictGet]
  | cons kv rest ih =>
    obtain ⟨k', w⟩ := kv
    by_cases hk : k' = k
    · simp [dictGet, hk] at h
    · simp [dictGet, hk] at h ⊢
      exact ih h

theorem hasSuccess_mkSearchProvider (att : Except String String) (pre : String) :
    hasSuccess (mkSearchProvider att pre) = true := by
  cases att <;> rfl

theorem searchProviders_success (net : String → Value → Except String String)
    (p : String) (f : Value → Value)
    (h : dictGet (searchProviders net) p = some f) (q : Value) :
    hasSuccess (f q) = true := by
  simp only [searchProviders, dictGet] at h
  split_ifs at h <;>
    (injection h with h'
     subst h'
     exact hasSuccess_mkSearchProvider _ _)

/-- C1: for every internal state of the Tool Registry, including states
where reading a tool description or schema raises, `serialize()` is total
(this embedding returns a plain list, never an exception): whenever the
serialization body raises internally the caught result is the empty list,
and otherwise it is the serialized list itself. -/
theorem serialize_never_raises :
    ∀ r : Registry,
      ((serializeBody r).isOk = false → serialize r = []) ∧
      (∀ l, serializeBody r = .ok l → serialize r = l) := by
  intro r
  unfold serialize
  cases hb : serializeBody r with
  | ok l =>
    refine ⟨fun h => ?_, fun l' hl' => ?_⟩
    · exact nomatch h
    · cases hl'
      rfl
  | error e =>
    exact ⟨fun _ => rfl, fun l' hl' => nomatch hl'⟩

/-- C1 witness: a corrupted registry whose description read raises is
serialized to the empty list. -/
theorem serialize_never_raises_witness :
    (serializeBody corruptRegistry).isOk = false ∧ serialize corruptRegistry = [] :=
  ⟨rfl, (serialize_never_raises corruptRegistry).1 rfl⟩

/-- C2: the mode classifier checks discussion markers first, so any message
containing one is classified conversation mode (`false`) regardless of
other signals; in particular the two examples of the specification. -/
theorem classifier_discussion_dominates :
    (∀ message p : String, p ∈ discussion_patterns →
        strIn p (pyLower message) = true → should_use_tool_mode message = false) ∧
    should_use_tool_mode "I think this might be broken" = false ∧
    should_use_tool_mode "Can you read the config file" = true := by
  refine ⟨?_, by decide, by decide⟩
  intro message p hp hin
  have hany : discussion_patterns.any (fun q => strIn q (pyLower message)) = true :=
    List.any_eq_true.mpr ⟨p, hp, hin⟩
  unfold should_use_tool_mode
  simp [hany]

/-- C2 witness: a message containing the discussion marker "i think" is
classified conversation mode. -/
theorem classifier_discussion_dominates_witness :
    ("i think" ∈ discussion_patterns ∧
      strIn "i think" (pyLower "I think we should use please here") = true) ∧
    should_use_tool_mode "I think we should use please here" = false :=
  ⟨⟨by decide, by decide⟩,
   classifier_discussion_dominates.1 "I think we should use please here" "i think"
     (by decide) (by decide)⟩

/-- C3 counterexample: a handler that raises `other "boom"` has its failure
propagated unchanged by `call`; it is NOT rewrapped into the
`ToolExecutionError{name, cause}` the claim describes. -/
theorem call_failure_not_wrapped_cex :
    call boomRegistry "t" [] = .error (.other "boom") ∧
    call boomRegistry "t" [] ≠ .error (.toolExecutionError "t" (.other "boom")) := by
  refine ⟨rfl, fun h => ?_⟩
  rw [show call boomRegistry "t" [] = Except.error (PyExc.other "boom") from rfl] at h
  exact PyExc.noConfusion (Except.error.inj h)

/-- C3 amended: `call` fails with the not-found `KeyError` (naming the tool
and the available names) exactly when the name is absent, and a registered
handler failure is re-raised unchanged — logged with the tool name but not
wrapped in any `ToolExecutionError`. -/
theorem call_not_found_and_reraises :
    (∀ (r : Registry) (name : String) (kwargs : List (String × Value)),
        dictGet r.tools name = none →
        call r name kwargs = .error (.keyError ("Tool \x27" ++ name ++
          "\x27 not found. Available: " ++ pyReprStrList (get_tool_names r)))) ∧
    (∀ (r : Registry) (name : String) (h : Handler)
        (kwargs : List (String × Value)) (e : PyExc),
        dictGet r.tools name = some h → h kwargs = .error e →
        call r name kwargs = .error e) := by
  constructor
  · intro r name kwargs hnone
    simp only [call, hnone]
  · intro r name h kwargs e hsome he
    simp only [call, hsome]
    exact he

/-- C3 witness: the missing name raises the not-found `KeyError`, and the
raising handler of `boomRegistry` has its own exception propagated. -/
theorem call_not_found_and_reraises_witness :
    (dictGet emptyRegistry.tools "missing" = none ∧
      call emptyRegistry "missing" [] =
        .error (.keyError "Tool \x27missing\x27 not found. Available: []")) ∧
    call boomRegistry "t" [] = .error (.other "boom") :=
  ⟨⟨rfl, call_not_found_and_reraises.1 emptyRegistry "missing" [] rfl⟩,
   call_not_found_and_reraises.2 boomRegistry "t"
     (fun _ => .error (.other "boom")) [] (.other "boom") rfl rfl⟩

/-- C4: registration is total (this embedding is a plain function on
registry states) and last-write-wins: after registering `h1` then `h2`
under the same name, the name exists and calling it runs `h2`. -/
theorem register_last_write_wins :
    ∀ (r : Registry) (x : String) (h1 h2 : Handler) (d1 d2 : String)
      (s1 s2 : Value) (kwargs : List (String × Value)),
      existsTool (register (register r x h1 d1 s1) x h2 d2 s2) x = true ∧
      call (register (register r x h1 d1 s1) x h2 d2 s2) x kwargs = h2 kwargs := by
  intro r x h1 h2 d1 d2 s1 s2 kwargs
  have hget : dictGet (register (register r x h1 d1 s1) x h2 d2 s2).tools x = some h2 := by
    simp [register, dictGet_dictSet_self]
  refine ⟨?_, ?_⟩
  · simp [existsTool, hasKey, hget]
  · simp only [call, hget]

/-- C5 counterexample: at a text with two wikipedia markers around one
read_file marker, reversed output is an admissible iteration of
`set(tools_found)` (Python leaves set order unspecified), and it differs
from the first-seen order the claim asserts. -/
theorem extractor_first_seen_order_cex :
    findallTool exToolText = ["wikipedia", "read_file", "wikipedia"] ∧
    setIterAdmissible (findallTool exToolText) ["read_file", "wikipedia"] ∧
    firstSeenDedup (findallTool exToolText) = ["wikipedia", "read_file"] ∧
    (["read_file", "wikipedia"] : List String) ≠ ["wikipedia", "read_file"] := by
  decide

/-- C5 amended: at that text, every admissible iteration of the
deduplicating `set` yields exactly the two distinct requested names — a
permutation of the first-seen-order pair, of length two — but in an
order the code leaves unspecified. -/
theorem extractor_dedup_unordered :
    ∀ out : List String, setIterAdmissible (findallTool exToolText) out →
      out.Perm ["wikipedia", "read_file"] ∧ out.length = 2 := by
  intro out h
  obtain ⟨hnd, hsub, hsup⟩ := h
  have hf : findallTool exToolText = ["wikipedia", "read_file", "wikipedia"] := by decide
  have hmem : ∀ a, a ∈ out ↔ a ∈ (["wikipedia", "read_file"] : List String) := by
    intro a
    constructor
    · intro ha
      have hx := hsub a ha
      rw [hf] at hx
      simp at hx ⊢
      tauto
    · intro ha
      apply hsup
      rw [hf]
      simp at ha ⊢
      tauto
  have hperm : out.Perm ["wikipedia", "read_file"] :=
    (List.perm_ext_iff_of_nodup hnd (by decide)).mpr hmem
  exact ⟨hperm, by simpa using hperm.length_eq⟩

/-- C5 witness: the reversed admissible iteration has the two entries. -/
theorem extractor_dedup_unordered_witness :
    setIterAdmissible (findallTool exToolText) ["read_file", "wikipedia"] ∧
    (["read_file", "wikipedia"] : List String).length = 2 :=
  ⟨by decide, (extractor_dedup_unordered ["read_file", "wikipedia"] (by decide)).2⟩

/-- C6 counterexample: with a single provider failing by sentinel output
(no exception), the chain returns the aggregate error with an EMPTY last
error — the failing provider is never named, contradicting the claim that
the aggregate error names the last failure. -/
theorem search_chain_last_failure_cex :
    hybrid_online_search sentinelFuncs ["searxng"] "q" =
      .dict [("error", .str "No provider returned a result. Last error: ")] ∧
    strIn "searxng" "No provider returned a result. Last error: " = false :=
  ⟨rfl, by decide⟩

/-- C6 amended: the chain tries providers in order, treats empty or
sentinel output as failure and falls through to the next provider, and a
later success reports that provider (with no error field, discarding
earlier failures); but when every provider fails, the aggregate error names
the most recent exception only — failures by empty or sentinel output do
not update the recorded last error. -/
theorem search_chain_fallback :
    (∀ (funcs : List (String × (String → Except String String)))
       (q a b : String) (rest : List String)
       (fa fb : String → Except String String) (ra rb : String),
       dictGet funcs a = some fa → fa q = .ok ra → isGoodResult ra = false →
       dictGet funcs b = some fb → fb q = .ok rb → isGoodResult rb = true →
       hybrid_online_search funcs (a :: b :: rest) q =
         .dict [("provider", .str b), ("result", .str rb)]) ∧
    (∀ (funcs : List (String × (String → Except String String)))
       (q a b : String) (fa fb : String → Except String String)
       (e rb : String),
       dictGet funcs a = some fa → fa q = .error e →
       dictGet funcs b = some fb → fb q = .ok rb → isGoodResult rb = false →
       hybrid_online_search funcs [a, b] q =
         .dict [("error", .str ("No provider returned a result. Last error: " ++
           (a ++ ": " ++ e)))]) := by
  constructor
  · intro funcs q a b rest fa fb ra rb ha hfa hra hb hfb hrb
    unfold hybrid_online_search
    simp only [hybridGo, ha, hfa, hra, hb, hfb, hrb]
    simp
  · intro funcs q a b fa fb e rb ha hfa hb hfb hrb
    unfold hybrid_online_search
    simp only [hybridGo, ha, hfa, hb, hfb, hrb]
    simp

/-- C6 witness: the sentinel-then-success table reports the second
provider, and the exception-then-empty table names the exception of the
first provider as the last error. -/
theorem search_chain_fallback_witness :
    (isGoodResult "No result." = false ∧
      isGoodResult "Lean is a proof assistant." = true ∧
      hybrid_online_search abFuncs ["duckduckgo", "wikipedia"] "q" =
        .dict [("provider", .str "wikipedia"),
               ("result", .str "Lean is a proof assistant.")]) ∧
    hybrid_online_search abFuncs2 ["perplexity", "duckduckgo"] "q" =
      .dict [("error", .str ("No provider returned a result. Last error: " ++
        ("perplexity" ++ ": " ++ "timeout")))] :=
  ⟨⟨by decide, by decide,
    search_chain_fallback.1 abFuncs "q" "duckduckgo" "wikipedia" []
      (fun _ => .ok "No result.") (fun _ => .ok "Lean is a proof assistant.")
      "No result." "Lean is a proof assistant." rfl rfl (by decide) rfl rfl (by decide)⟩,
   search_chain_fallback.2 abFuncs2 "q" "perplexity" "duckduckgo"
     (fun _ => .error "timeout") (fun _ => .ok "") "timeout" "" rfl rfl rfl rfl (by decide)⟩

theorem dispStep_unknown_name (funcs : List (String × (String → Except String String)))
    (reg : Registry) (message : String) (st : DispState) (tool : String)
    (h1 : dictGet funcs (pyLower tool) = none)
    (h2 : existsTool reg tool = false) :
    dispStep funcs reg message st tool = st := by
  simp only [dispStep, h1, h2]
  simp

theorem dispStep_provider_error (funcs : List (String × (String → Except String String)))
    (reg : Registry) (message : String) (st : DispState) (tool : String)
    (f : String → Except String String) (e : String)
    (hf : dictGet funcs (pyLower tool) = some f) (he : f message = .error e) :
    dispStep funcs reg message st tool =
      { st with text := st.text ++ "\n\n*" ++ tool ++ " error: " ++ e ++ "*" } := by
  simp only [dispStep, hf, he]

theorem dispStep_provider_ok (funcs : List (String × (String → Except String String)))
    (reg : Registry) (message : String) (st : DispState) (tool : String)
    (f : String → Except String String) (r : String)
    (hf : dictGet funcs (pyLower tool) = some f) (hr : f message = .ok r) :
    dispStep funcs reg message st tool =
      { text := st.text ++ "\n\n**" ++ tool ++ " Result:**\n" ++ r,
        used := st.used ++ [tool],
        actions := st.actions ++ [⟨"search_tool", tool, .str r⟩] } := by
  simp only [dispStep, hf, hr]

/-- C7 counterexample: dispatching a name that is neither a provider nor a
registered tool, followed by a provider call that raises, records NO
action at all — in particular no "not_found" action and no action carrying
the error; only an inline error note is appended to the text. -/
theorem dispatcher_no_action_cex :
    (dispatchTools boomFuncs emptyRegistry "msg" ["nope", "wikipedia"] dispStart).actions = [] ∧
    (¬ ∃ a ∈ (dispatchTools boomFuncs emptyRegistry "msg" ["nope", "wikipedia"] dispStart).actions,
        a.atype = "not_found") ∧
    (dispatchTools boomFuncs emptyRegistry "msg" ["nope", "wikipedia"] dispStart).text =
      "base\n\n*wikipedia error: boom*" := by
  refine ⟨rfl, ?_, rfl⟩
  rintro ⟨a, ha, -⟩
  rw [show (dispatchTools boomFuncs emptyRegistry "msg" ["nope", "wikipedia"] dispStart).actions
      = [] from rfl] at ha
  exact absurd ha (List.not_mem_nil a)

/-- C7 amended: a name matching neither a search provider nor a registered
tool is silently skipped — the dispatch state is unchanged, so no action is
recorded and nothing is raised; a failing provider call appends an inline
error note to the text and records no action; and processing continues past
failures, so a success at a later name still records its action. -/
theorem dispatcher_best_effort :
    (∀ funcs (reg : Registry) (message : String) (st : DispState) (tool : String),
       dictGet funcs (pyLower tool) = none → existsTool reg tool = false →
       dispStep funcs reg message st tool = st) ∧
    (∀ funcs (reg : Registry) (message : String) (st : DispState) (tool : String)
       (f : String → Except String String) (e : String),
       dictGet funcs (pyLower tool) = some f → f message = .error e →
       dispStep funcs reg message st tool =
         { st with text := st.text ++ "\n\n*" ++ tool ++ " error: " ++ e ++ "*" }) ∧
    (∀ funcs (reg : Registry) (message : String) (st : DispState) (a b : String)
       (f g : String → Except String String) (e r : String),
       dictGet funcs (pyLower a) = some f → f message = .error e →
       dictGet funcs (pyLower b) = some g → g message = .ok r →
       ∃ act ∈ (dispatchTools funcs reg message [a, b] st).actions,
         act.atype = "search_tool" ∧ act.tool = b) := by
  refine ⟨dispStep_unknown_name, dispStep_provider_error, ?_⟩
  intro funcs reg message st a b f g e r hfa hea hgb hrb
  have h1 := dispStep_provider_error funcs reg message st a f e hfa hea
  have h2 := dispStep_provider_ok funcs reg message
    { st with text := st.text ++ "\n\n*" ++ a ++ " error: " ++ e ++ "*" } b g r hgb hrb
  refine ⟨⟨"search_tool", b, .str r⟩, ?_, rfl, rfl⟩
  unfold dispatchTools
  simp only [List.foldl, h1, h2]
  simp

/-- C7 witness: the unknown name "nope" leaves the state unchanged, and
after wikipedia raises, the later duckduckgo success is still recorded. -/
theorem dispatcher_best_effort_witness :
    dispStep mixedFuncs emptyRegistry "msg" dispStart "nope" = dispStart ∧
    (∃ act ∈ (dispatchTools mixedFuncs emptyRegistry "msg"
        ["wikipedia", "duckduckgo"] dispStart).actions,
      act.atype = "search_tool" ∧ act.tool = "duckduckgo") :=
  ⟨dispatcher_best_effort.1 mixedFuncs emptyRegistry "msg" dispStart "nope" rfl rfl,
   dispatcher_best_effort.2.2 mixedFuncs emptyRegistry "msg" dispStart
     "wikipedia" "duckduckgo" (fun _ => .error "boom") (fun _ => .ok "answer")
     "boom" "answer" rfl rfl rfl rfl⟩

/-- C8 counterexample: the api.py websocket endpoint (the cited source)
answers an inbound message of unrecognized type "bogus" with NO outbound
message at all — in particular no error describing the unknown type — while
the session stays open. -/
theorem unknown_type_no_error_cex :
    (apiWsStep wsEnvA (.received "bogus" [])).1 = .opened ∧
    ¬ ∃ v ∈ (apiWsStep wsEnvA (.received "bogus" [])).2, valueType v = some "error" := by
  refine ⟨rfl, ?_⟩
  rintro ⟨v, hv, -⟩
  rw [show (apiWsStep wsEnvA (.received "bogus" [])).2 = [] from rfl] at hv
  exact absurd hv (List.not_mem_nil v)

/-- C8 amended: on an unrecognized message type the session remains open in
both endpoint variants, but only the main.py endpoint emits an error
describing the unknown type; the cited api.py endpoint falls through its
if/elif chain and emits nothing. -/
theorem unknown_type_behavior :
    (∀ (env : ApiWsEnv) (t : String) (payload : List (String × Value)),
       t ≠ "query" → t ≠ "invoke" → t ≠ "propose_new_tool" →
       apiWsStep env (.received t payload) = (.opened, [])) ∧
    (∀ (env : MainWsEnv) (t : String) (payload : List (String × Value)),
       t ≠ "query" → t ≠ "invoke" → pyStartswith t "speech_" = false →
       t ≠ "memory_search" → t ≠ "get_capabilities" → t ≠ "gpu_status" →
       mainWsStep env (.received t payload) =
         (.opened, [.dict [("type", .str "error"),
           ("error", .str ("Unknown message type: " ++ t))]])) := by
  constructor
  · intro env t payload h1 h2 h3
    simp [apiWsStep, h1, h2, h3]
  · intro env t payload h1 h2 h3 h4 h5 h6
    simp [mainWsStep, h1, h2, h3, h4, h5, h6]

/-- C8 witness: the unknown type "bogus" at concrete environments. -/
theorem unknown_type_behavior_witness :
    (pyStartswith "bogus" "speech_" = false ∧
      apiWsStep wsEnvA (.received "bogus" []) = (.opened, [])) ∧
    mainWsStep wsEnvM (.received "bogus" []) =
      (.opened, [.dict [("type", .str "error"),
        ("error", .str ("Unknown message type: " ++ "bogus"))]]) :=
  ⟨⟨by decide,
    unknown_type_behavior.1 wsEnvA "bogus" [] (by decide) (by decide) (by decide)⟩,
   unknown_type_behavior.2 wsEnvM "bogus" [] (by decide) (by decide) (by decide)
     (by decide) (by decide) (by decide)⟩

/-- C9 counterexample: on a receive timeout the api.py websocket endpoint
(the cited source) sends nothing — in particular no keepalive message —
while the session stays open. -/
theorem timeout_no_keepalive_cex :
    (apiWsStep wsEnvA Inbound.timeout).1 = .opened ∧
    ¬ ∃ v ∈ (apiWsStep wsEnvA Inbound.timeout).2, valueType v = some "keepalive" := by
  refine ⟨rfl, ?_⟩
  rintro ⟨v, hv, -⟩
  rw [show (apiWsStep wsEnvA Inbound.timeout).2 = [] from rfl] at hv
  exact absurd hv (List.not_mem_nil v)

/-- C9 amended: on a receive timeout the session remains open in both
endpoint variants, but only the main.py endpoint emits a keepalive message;
the cited api.py endpoint logs and continues without sending anything. -/
theorem timeout_behavior :
    (∀ env : ApiWsEnv, apiWsStep env Inbound.timeout = (.opened, [])) ∧
    (∀ env : MainWsEnv, mainWsStep env Inbound.timeout =
      (.opened, [.dict [("type", .str "keepalive"), ("gpu_first", .bool true)]])) :=
  ⟨fun _ => rfl, fun _ => rfl⟩

/-- C10: `ToolService.execute_tool` is total in this embedding (the outer
try/except is part of the function) and always returns a dict carrying a
`success` key; non-dict handler results are wrapped, dict results lacking
`success` get `success: True` appended, and handler exceptions, unknown
names and missing search queries each yield a `success: False` error dict. -/
theorem execute_tool_normalization :
    (∀ net (reg : Registry) (name : String) (args : List (String × Value)),
       hasSuccess (execute_tool net reg name args) = true) ∧
    (∀ net (reg : Registry) (name : String) (args : List (String × Value)) (v : Value),
       dictGet (searchProviders net) (pyLower name) = none →
       existsTool reg name = true →
       call reg name args = .ok v → isDictV v = false →
       execute_tool net reg name args =
         .dict [("success", .bool true), ("result", v)]) ∧
    (∀ net (reg : Registry) (name : String) (args : List (String × Value))
       (kvs : List (String × Value)),
       dictGet (searchProviders net) (pyLower name) = none →
       existsTool reg name = true →
       call reg name args = .ok (.dict kvs) → hasKey kvs "success" = false →
       execute_tool net reg name args = .dict (kvs ++ [("success", .bool true)])) ∧
    (∀ net (reg : Registry) (name : String) (args : List (String × Value)) (e : PyExc),
       dictGet (searchProviders net) (pyLower name) = none →
       existsTool reg name = true →
       call reg name args = .error e →
       execute_tool net reg name args =
         .dict [("success", .bool false), ("error", .str (excMsg e))]) ∧
    (∀ net (reg : Registry) (name : String) (args : List (String × Value)),
       dictGet (searchProviders net) (pyLower name) = none →
       existsTool reg name = false →
       execute_tool net reg name args =
         .dict [("success", .bool false),
           ("error", .str ("Tool \x27" ++ name ++ "\x27 not found. Available: " ++
             pyReprStrList (get_tool_names reg ++ (searchProviders net).map Prod.fst)))]) ∧
    (∀ net (reg : Registry) (name : String) (args : List (String × Value))
       (f : Value → Value),
       dictGet (searchProviders net) (pyLower name) = some f →
       isFalsy ((dictGet args "query").getD (.str "")) = true →
       execute_tool net reg name args =
         .dict [("success", .bool false), ("error", .str "No query provided for search")]) := by
  refine ⟨?_, ?_, ?_, ?_, ?_, ?_⟩
  · intro net reg name args
    unfold execute_tool execute_tool_body
    cases hsp : dictGet (searchProviders net) (pyLower name) with
    | some f =>
      by_cases hq : isFalsy ((dictGet args "query").getD (.str "")) = true
      · simp [hq, hasSuccess, hasKey, dictGet]
      · have hf := searchProviders_success net (pyLower name) f hsp
          ((dictGet args "query").getD (.str ""))
        simp [hq, hf]
    | none =>
      cases hex : existsTool reg name with
      | false => simp [hex, hasSuccess, hasKey, dictGet]
      | true =>
        cases hc : call reg name args with
        | error e => simp [hex, hc, hasSuccess, hasKey, dictGet]
        | ok v =>
          cases v with
          | dict kvs =>
            by_cases hk : hasKey kvs "success" = true
            · simp [hex, hc, hk, hasSuccess]
            · simp only [Bool.not_eq_true] at hk
              have hnone : dictGet kvs "success" = none := by
                cases hdg : dictGet kvs "success" with
                | none => rfl
                | some w => simp [hasKey, hdg] at hk
              simp [hex, hc, hasSuccess, hasKey, hnone,
                dictGet_append_of_none (Value.bool true) hnone]
          | null => simp [hex, hc, hasSuccess, hasKey, dictGet]
          | bool b => simp [hex, hc, hasSuccess, hasKey, dictGet]
          | num n => simp [hex, hc, hasSuccess, hasKey, dictGet]
          | str s => simp [hex, hc, hasSuccess, hasKey, dictGet]
          | list xs => simp [hex, hc, hasSuccess, hasKey, dictGet]
  · intro net reg name args v hsp hex hc hv
    cases v with
    | dict kvs => simp [isDictV] at hv
    | null => simp [execute_tool, execute_tool_body, hsp, hex, hc]
    | bool b => simp [execute_tool, execute_tool_body, hsp, hex, hc]
    | num n => simp [execute_tool, execute_tool_body, hsp, hex, hc]
    | str s => simp [execute_tool, execute_tool_body, hsp, hex, hc]
    | list xs => simp [execute_tool, execute_tool_body, hsp, hex, hc]
  · intro net reg name args kvs hsp hex hc hk
    simp [execute_tool, execute_tool_body, hsp, hex, hc, hk]
  · intro net reg name args e hsp hex hc
    simp [execute_tool, execute_tool_body, hsp, hex, hc]
  · intro net reg name args hsp hex
    simp [execute_tool, execute_tool_body, hsp, hex]
  · intro net reg name args f hsp hq
    simp [execute_tool, execute_tool_body, hsp, hq]

/-- C10 witness: the plain string result of the echo tool is wrapped with
`success: True`. -/
theorem execute_tool_normalization_witness :
    existsTool echoRegistry "echo" = true ∧
    execute_tool (fun _ _ => .error "net down") echoRegistry "echo" [] =
      .dict [("success", .bool true), ("result", .str "hi")] :=
  ⟨rfl, execute_tool_normalization.2.1 (fun _ _ => .error "net down")
    echoRegistry "echo" [] (.str "hi") rfl rfl rfl rfl⟩
